import Mathlib

/-!
Verification of the OpenHands client core: the sandbox-recovery coordinator
(`use-sandbox-recovery.ts`), the wire-event normalizer and edit handlers
(`ChatViewProvider`), the realtime dispatch list and the session lifecycle
manager (`OpenHandsClient`).  Each definition is a shallow embedding of the
corresponding TypeScript function; theorems settle the spec claims.
-/

/-- JavaScript truthiness of an optional string value: `undefined`/`null` and
the empty string are falsy, every other string is truthy. -/
def jsTruthy : Option String → Bool
  | none => false
  | some s => s ≠ ""

/-- A string whose `.trim()` is empty, i.e. every character is whitespace
(this is exactly the strings rejected by the `content && content.trim()`
check in `handleAgentEvent`). -/
def isWhitespaceOnly (s : String) : Bool :=
  s.toList.all fun c => c.isWhitespace

/-! ## Recovery Coordinator (`use-sandbox-recovery.ts`, richer variant)

`attemptRecovery(statusOverride?)` computes the governing status as
`statusOverride ?? conversationStatus` and only calls `resumeSandbox` when a
conversation id is present, the governing status is `"STOPPED"` and no resume
is already pending (`isResuming`).  The returned `Bool` records whether
`resumeSandbox` was called. -/

/-- `statusOverride ?? conversationStatus` (JS nullish coalescing). -/
def governingStatus (statusOverride conversationStatus : Option String) : Option String :=
  match statusOverride with
  | some s => some s
  | none => conversationStatus

/-- `attemptRecovery` from the hook: returns `true` iff `resumeSandbox` is
invoked. -/
def attemptRecovery (conversationId conversationStatus : Option String)
    (isResuming : Bool) (statusOverride : Option String) : Bool :=
  let status := governingStatus statusOverride conversationStatus
  if conversationId = none ∨ status ≠ some "STOPPED" ∨ isResuming = true then
    false
  else
    true

/-- The slice of the conversation object that the tab-focus handler reads
(`data?.status`). -/
structure ConversationData where
  status : String
deriving DecidableEq

/-- `data?.status` of an optional refetch result. -/
def refetchedStatus (d : Option ConversationData) : Option String :=
  d.map ConversationData.status

/-- The `onVisible` callback registered through `useVisibilityChange`: it
returns early when no conversation id or no `refetchConversation` is
available, otherwise it refetches and calls
`attemptRecovery(data?.status)`.  The refetch result is passed in as
`refetchResult`; the returned `Bool` records whether `resumeSandbox` was
called. -/
def onVisibleHandler (conversationId : Option String) (hasRefetch : Bool)
    (conversationStatus : Option String) (isResuming : Bool)
    (refetchResult : Option ConversationData) : Bool :=
  if conversationId = none ∨ hasRefetch = false then false
  else attemptRecovery conversationId conversationStatus isResuming
    (refetchedStatus refetchResult)

/-- The two refs of the hook: `hasAttemptedRecoveryRef` and
`isInitialLoadRef`. -/
structure RecoveryRefs where
  hasAttemptedRecovery : Option String
  isInitialLoad : Bool
deriving DecidableEq

/-- Ref values on first render: `useRef<string | null>(null)` and
`useRef(true)`. -/
def initialRecoveryRefs : RecoveryRefs := ⟨none, true⟩

/-- One run of the initial-load/navigation effect of the hook.  Returns the
updated refs and whether `resumeSandbox` was called during this run. -/
def recoveryEffect (s : RecoveryRefs) (conversationId conversationStatus : Option String)
    (isResuming : Bool) : RecoveryRefs × Bool :=
  match conversationId, conversationStatus with
  | some cid, some status =>
    let isNewConversation := s.hasAttemptedRecovery ≠ some cid
    let s1 : RecoveryRefs :=
      if isNewConversation ∧ s.hasAttemptedRecovery ≠ none then
        { s with isInitialLoad := true }
      else s
    if s1.isInitialLoad ∧ isNewConversation then
      let s2 : RecoveryRefs := ⟨some cid, false⟩
      if status = "STOPPED" then
        (s2, attemptRecovery (some cid) (some status) isResuming none)
      else
        (s2, false)
    else
      (s1, false)
  | _, _ => (s, false)

/-- C1: whenever `attemptRecovery` is evaluated while the conversation id is
absent, or while a resume is already pending (`isResuming`), or while the
governing status (`statusOverride ?? conversationStatus`) is not `"STOPPED"`,
no `resumeSandbox` call is issued. -/
theorem recovery_single_flight_guard :
    (∀ cs : Option String, ∀ r : Bool, ∀ ov : Option String,
      attemptRecovery none cs r ov = false) ∧
    (∀ id cs ov : Option String,
      attemptRecovery id cs true ov = false) ∧
    (∀ id cs ov : Option String, ∀ r : Bool,
      governingStatus ov cs ≠ some "STOPPED" → attemptRecovery id cs r ov = false) := by
  refine ⟨?_, ?_, ?_⟩
  · intro cs r ov
    simp [attemptRecovery]
  · intro id cs ov
    simp [attemptRecovery]
  · intro id cs ov r h
    simp [attemptRecovery, h]

/-- C1 witness: the guard at concrete inputs (missing id, pending resume,
non-STOPPED governing status). -/
theorem recovery_single_flight_guard_check :
    attemptRecovery none (some "STOPPED") false none = false ∧
    attemptRecovery (some "conv-1") (some "STOPPED") true none = false ∧
    attemptRecovery (some "conv-1") (some "RUNNING") false none = false :=
  ⟨recovery_single_flight_guard.1 (some "STOPPED") false none,
   recovery_single_flight_guard.2.1 (some "conv-1") (some "STOPPED") none,
   recovery_single_flight_guard.2.2 (some "conv-1") (some "RUNNING") none false (by decide)⟩

/-- C2: on the tab-focus trigger the handler passes the freshly fetched
status (`data?.status`) to `attemptRecovery` as the governing status, so for
every refetch that returns a status other than `"STOPPED"` no `resumeSandbox`
call occurs, even when the cached status was `"STOPPED"`. -/
theorem tab_focus_fresh_status_gate (id : String) (cached : Option String)
    (r : Bool) (d : ConversationData) (h : d.status ≠ "STOPPED") :
    onVisibleHandler (some id) true cached r (some d) = false := by
  simp [onVisibleHandler, attemptRecovery, refetchedStatus, governingStatus, h]

/-- C2 witness: fresh status `"RUNNING"` while the cached status is
`"STOPPED"` issues no resume. -/
theorem tab_focus_fresh_status_gate_check :
    (ConversationData.mk "RUNNING").status ≠ "STOPPED" ∧
    onVisibleHandler (some "conv-2") true (some "STOPPED") false
      (some (ConversationData.mk "RUNNING")) = false :=
  ⟨by decide,
   tab_focus_fresh_status_gate "conv-2" (some "STOPPED") false
     (ConversationData.mk "RUNNING") (by decide)⟩

/-- C5: with the refs in their initial-mount state and cached status
`"STOPPED"`, one effect run issues exactly one resume; re-running the effect
while `hasAttemptedRecoveryRef` already records the same conversation id
issues no further call and leaves the refs unchanged; running the effect for
a different conversation id with status `"STOPPED"` issues exactly one new
call for the new id. -/
theorem initial_mount_resume_exactly_once :
    (∀ a : String,
      recoveryEffect initialRecoveryRefs (some a) (some "STOPPED") false =
        (⟨some a, false⟩, true)) ∧
    (∀ s : RecoveryRefs, ∀ cid : String, ∀ st : Option String, ∀ r : Bool,
      s.hasAttemptedRecovery = some cid →
      recoveryEffect s (some cid) st r = (s, false)) ∧
    (∀ a b : String, a ≠ b →
      recoveryEffect ⟨some a, false⟩ (some b) (some "STOPPED") false =
        (⟨some b, false⟩, true)) := by
  refine ⟨?_, ?_, ?_⟩
  · intro a
    simp [recoveryEffect, initialRecoveryRefs, attemptRecovery, governingStatus]
  · intro s cid st r h
    cases st with
    | none => rfl
    | some status =>
      simp [recoveryEffect, h]
  · intro a b hab
    have h1 : (some a : Option String) ≠ some b := by
      intro h
      exact hab (Option.some.inj h)
    simp [recoveryEffect, attemptRecovery, governingStatus, h1]

/-- C5 witness: initial mount of `"c1"` resumes once; a re-render with the
same id resumes again zero times; navigating to `"c2"` resumes once. -/
theorem initial_mount_resume_exactly_once_check :
    recoveryEffect initialRecoveryRefs (some "c1") (some "STOPPED") false =
      (⟨some "c1", false⟩, true) ∧
    recoveryEffect ⟨some "c1", false⟩ (some "c1") (some "STOPPED") false =
      (⟨some "c1", false⟩, false) ∧
    recoveryEffect ⟨some "c1", false⟩ (some "c2") (some "STOPPED") false =
      (⟨some "c2", false⟩, true) :=
  ⟨initial_mount_resume_exactly_once.1 "c1",
   initial_mount_resume_exactly_once.2.1 ⟨some "c1", false⟩ "c1" (some "STOPPED") false rfl,
   initial_mount_resume_exactly_once.2.2 "c1" "c2" (by decide)⟩

/-! ## Event Normalizer (`ChatViewProvider.handleAgentEvent`)

The raw wire event is untyped JSON from two schema generations.  The fields
the handler actually touches are modelled below; JS object fields that may be
absent are `Option`s, and a field that holds either a string (generation A)
or an object (generation B) is a sum. -/

/-- The `action` field: absent, a generation-A string discriminator, or a
generation-B object carrying `command`. -/
inductive ActionField
  | aNone
  | aStr (s : String)
  | aObj (command : Option String)
deriving DecidableEq

/-- The `observation` field: absent, a generation-A string discriminator, or
a generation-B object carrying a `content` array whose items carry `text`. -/
inductive ObservationField
  | oNone
  | oStr (s : String)
  | oObj (content : Option (List (Option String)))
deriving DecidableEq

/-- `args.outputs` of a finish action. -/
structure OutputsObj where
  content : Option String
deriving DecidableEq

/-- The `args` object (only the fields the handler reads). -/
structure ArgsObj where
  content : Option String
  outputs : Option OutputsObj
  final_thought : Option String
  thought : Option String
  path : Option String
deriving DecidableEq

/-- The `extras` object (only the fields the handler reads). -/
structure ExtrasObj where
  content : Option String
  agent_state : Option String
deriving DecidableEq

/-- A raw wire event as seen by `handleAgentEvent`.  `status_update` and
`tool_call_metadata` are recorded as their JS truthiness. -/
structure AgentEvent where
  status_update : Bool
  source : Option String
  key : Option String
  action : ActionField
  observation : ObservationField
  reasoning_content : Option String
  args : Option ArgsObj
  message : Option String
  content : Option String
  extras : Option ExtrasObj
  tool_call_metadata : Bool
deriving DecidableEq

/-- Text source 1 (generation B): `reasoning_content`, rendered as
`*Thinking: ...*`. -/
def srcReasoning (e : AgentEvent) : Option String :=
  match e.reasoning_content with
  | some r => if r = "" then none else some ("*Thinking: " ++ r ++ "*")
  | none => none

/-- Text source 2 (generation B): `action.command`, rendered as
``Running: `...```. -/
def srcActionCommand (e : AgentEvent) : Option String :=
  match e.action with
  | ActionField.aObj (some c) => if c = "" then none else some ("Running: `" ++ c ++ "`")
  | _ => none

/-- Text source 3 (generation B): `observation.content[0].text`, rendered as
a fenced code block. -/
def srcObservationText (e : AgentEvent) : Option String :=
  match e.observation with
  | ObservationField.oObj (some items) =>
    match items.head? with
    | some (some t) => if t = "" then none else some ("```\n" ++ t ++ "\n```")
    | _ => none
  | _ => none

/-- Text source 4 (generation A): finish action outputs,
`outputs.content || args.final_thought`. -/
def srcFinishOutputs (e : AgentEvent) : Option String :=
  match e.action, e.args with
  | ActionField.aStr "finish", some a =>
    match a.outputs with
    | some outs =>
      if jsTruthy outs.content then outs.content
      else if jsTruthy a.final_thought then a.final_thought
      else none
    | none => none
  | _, _ => none

/-- Text source 5 (generation A): message action `args.content`. -/
def srcMessageAction (e : AgentEvent) : Option String :=
  match e.action, e.args with
  | ActionField.aStr "message", some a => if jsTruthy a.content then a.content else none
  | _, _ => none

/-- Text source 6: the direct `message` field. -/
def srcMessageField (e : AgentEvent) : Option String :=
  if jsTruthy e.message then e.message else none

/-- Text source 7: the direct `content` field. -/
def srcContentField (e : AgentEvent) : Option String :=
  if jsTruthy e.content then e.content else none

/-- Text source 8 (generation A): think action `args.thought`, rendered as
`*Thinking: ...*`. -/
def srcThinkThought (e : AgentEvent) : Option String :=
  match e.action, e.args with
  | ActionField.aStr "think", some a =>
    match a.thought with
    | some t => if t = "" then none else some ("*Thinking: " ++ t ++ "*")
    | none => none
  | _, _ => none

/-- Text source 9: `extras.content`. -/
def srcExtrasContent (e : AgentEvent) : Option String :=
  match e.extras with
  | some ex => if jsTruthy ex.content then ex.content else none
  | none => none

/-- The nine text sources in the order the handler consults them. -/
def contentSources (e : AgentEvent) : List (Option String) :=
  [srcReasoning e, srcActionCommand e, srcObservationText e, srcFinishOutputs e,
   srcMessageAction e, srcMessageField e, srcContentField e, srcThinkThought e,
   srcExtrasContent e]

/-- The `if (!content && ...)` cascade of `handleAgentEvent`, lines 311-364:
each step fires only when no earlier step produced truthy text. -/
def resolveContent (e : AgentEvent) : Option String :=
  srcReasoning e <|> srcActionCommand e <|> srcObservationText e <|>
    srcFinishOutputs e <|> srcMessageAction e <|> srcMessageField e <|>
    srcContentField e <|> srcThinkThought e <|> srcExtrasContent e

/-- Environment keys that are skipped outright. -/
def isEnvSkipKey (k : Option String) : Bool :=
  k = some "execution_status" || k = some "stats" || k = some "full_state"

/-- The early returns of `handleAgentEvent`: status updates, user-sourced
events, content-less environment events and agent-state-change
notifications. -/
def skipGuard (e : AgentEvent) : Bool :=
  e.status_update ||
    e.source = some "user" ||
    (e.source = some "environment" && isEnvSkipKey e.key) ||
    e.observation = ObservationField.oStr "agent_state_changed"

/-- `event.action === 'write' && event.args`. -/
def isWriteAction (e : AgentEvent) : Bool :=
  e.action = ActionField.aStr "write" && e.args.isSome

/-- `event.action === 'edit' && event.tool_call_metadata`. -/
def isEditAction (e : AgentEvent) : Bool :=
  e.action = ActionField.aStr "edit" && e.tool_call_metadata

/-- What one `handleAgentEvent` call surfaces: the message content it sets
(if any), and whether the file-write / edit side channels fire. -/
structure AgentEventOutput where
  messageContent : Option String
  fileWriteSurfaced : Bool
  editActionSurfaced : Bool
deriving DecidableEq

/-- `handleAgentEvent`: early returns, then the text-resolution cascade
guarded by `content && content.trim()`, then the file side channels. -/
def handleAgentEvent (e : AgentEvent) : AgentEventOutput :=
  if skipGuard e then ⟨none, false, false⟩
  else
    let msg :=
      match resolveContent e with
      | some c => if isWhitespaceOnly c then none else some c
      | none => none
    ⟨msg, isWriteAction e, isEditAction e⟩

/-- First-`some` of a list of options equals the element at the first
position holding a `some`, provided all earlier positions are `none`. -/
theorem findSome_id_eq_getD {α : Type} (l : List (Option α)) (k : Nat)
    (hk : k < l.length) (hy : (l.getD k none).isSome = true)
    (hp : ∀ j, j < k → l.getD j none = none) :
    l.findSome? id = l.getD k none := by
  induction l generalizing k with
  | nil => simp at hk
  | cons a t ih =>
    cases k with
    | zero =>
      simp only [List.getD_cons_zero] at hy ⊢
      obtain ⟨v, hv⟩ := Option.isSome_iff_exists.mp hy
      subst hv
      simp [List.findSome?]
    | succ k' =>
      have h0 : a = none := by
        have := hp 0 (Nat.succ_pos k')
        simpa using this
      subst h0
      simp only [List.getD_cons_succ, List.findSome?_cons, id]
      exact ih k' (by simpa using hk) (by simpa using hy)
        (fun j hj => by
          have := hp (j + 1) (by omega)
          simpa using this)

/-- The cascade of `resolveContent` is the first-match over the ordered
source list. -/
theorem resolveContent_eq_findSome (e : AgentEvent) :
    resolveContent e = (contentSources e).findSome? id := by
  simp only [resolveContent, contentSources]
  cases srcReasoning e <;> cases srcActionCommand e <;> cases srcObservationText e <;>
    cases srcFinishOutputs e <;> cases srcMessageAction e <;> cases srcMessageField e <;>
    cases srcContentField e <;> cases srcThinkThought e <;> cases srcExtrasContent e <;>
    rfl

/-- C3: the display text is resolved by a fixed first-match-wins order over
the nine sources (reasoning, tool command, tool result, finish outputs,
message action, direct message, direct content, think thought,
extras.content): the first source that yields text determines the result and
later sources are ignored. -/
theorem normalizer_resolution_order (e : AgentEvent) (k : Nat) (hk : k < 9)
    (hyield : ((contentSources e).getD k none).isSome = true)
    (hprev : ∀ j, j < k → (contentSources e).getD j none = none) :
    resolveContent e = (contentSources e).getD k none := by
  rw [resolveContent_eq_findSome]
  exact findSome_id_eq_getD (contentSources e) k (by simp [contentSources]; omega)
    hyield hprev

/-- Event with only a direct `message` field. -/
def messageOnlyEvent : AgentEvent :=
  ⟨false, some "agent", none, ActionField.aNone, ObservationField.oNone, none,
    none, some "hello", some "ignored", none, false⟩

/-- C3 witness: for an event whose first yielding source is the direct
`message` field (index 5), the resolved text is that field even though the
later `content` field is also set. -/
theorem normalizer_resolution_order_check :
    (5 < 9 ∧ ((contentSources messageOnlyEvent).getD 5 none).isSome = true ∧
      (∀ j, j < 5 → (contentSources messageOnlyEvent).getD j none = none)) ∧
    resolveContent messageOnlyEvent = (contentSources messageOnlyEvent).getD 5 none :=
  ⟨⟨by decide, by decide, by decide⟩,
   normalizer_resolution_order messageOnlyEvent 5 (by decide) (by decide) (by decide)⟩

/-- The class of events the spec calls "carrying no resolvable text", with
the whitespace proviso placed where the code puts it: skipped event classes,
events where no source yields text, and events whose resolved rendered text
is whitespace-only. -/
def noResolvableText (e : AgentEvent) : Prop :=
  e.status_update = true ∨
    e.source = some "user" ∨
    (e.source = some "environment" ∧ isEnvSkipKey e.key = true) ∨
    e.observation = ObservationField.oStr "agent_state_changed" ∨
    resolveContent e = none ∨
    (∃ c, resolveContent e = some c ∧ isWhitespaceOnly c = true)

/-- Event whose only populated source is a whitespace `reasoning_content`. -/
def whitespaceThinkEvent : AgentEvent :=
  ⟨false, some "agent", none, ActionField.aNone, ObservationField.oNone, some " ",
    none, none, none, none, false⟩

/-- C6 counterexample: an agent event whose every text-resolution source is
empty or whitespace (its only populated source is `reasoning_content = " "`)
still gets message content, because the rendered decoration
`*Thinking:  *` survives the `.trim()` check.  The claim as stated is
therefore false. -/
theorem normalizer_whitespace_reasoning_cex :
    (handleAgentEvent whitespaceThinkEvent).messageContent = some "*Thinking:  *" ∧
    ¬ (handleAgentEvent whitespaceThinkEvent).messageContent = none := by
  decide

/-- C6 (amended): for every event that is skipped (status update, user
source, content-less environment event, agent-state change), or where no
source yields text, or whose resolved rendered text is whitespace-only, no
message content is produced; the file-write and edit side channels are the
only outputs that may still fire, and they fire exactly when the event is
not skipped and carries a write action / edit tool-call, independent of
whether display text was produced. -/
theorem normalizer_no_text_no_message (e : AgentEvent) (h : noResolvableText e) :
    (handleAgentEvent e).messageContent = none ∧
    (handleAgentEvent e).fileWriteSurfaced = (!skipGuard e && isWriteAction e) ∧
    (handleAgentEvent e).editActionSurfaced = (!skipGuard e && isEditAction e) := by
  by_cases hs : skipGuard e = true
  · simp [handleAgentEvent, hs]
  · have hs' : skipGuard e = false := by
      revert hs
      cases skipGuard e <;> simp
    refine ⟨?_, by simp [handleAgentEvent, hs'], by simp [handleAgentEvent, hs']⟩
    rcases h with h | h | ⟨h1, h2⟩ | h | h | ⟨c, hc, hw⟩
    · simp [skipGuard, h] at hs'
    · simp [skipGuard, h] at hs'
    · simp [skipGuard, h1, h2] at hs'
    · simp [skipGuard, h] at hs'
    · simp [handleAgentEvent, hs', h]
    · simp [handleAgentEvent, hs', hc, hw]

/-- Write action carrying no display text at all. -/
def silentWriteEvent : AgentEvent :=
  ⟨false, some "agent", none, ActionField.aStr "write", ObservationField.oNone, none,
    some ⟨some "data", none, none, none, some "/workspace/out.txt"⟩, none, none, none, false⟩

/-- C6 witness: a write action with no resolvable text yields no message
content while its file-write side channel still fires. -/
theorem normalizer_no_text_no_message_check :
    (handleAgentEvent silentWriteEvent).messageContent = none ∧
    (handleAgentEvent silentWriteEvent).fileWriteSurfaced =
      (!skipGuard silentWriteEvent && isWriteAction silentWriteEvent) ∧
    (handleAgentEvent silentWriteEvent).editActionSurfaced =
      (!skipGuard silentWriteEvent && isEditAction silentWriteEvent) :=
  normalizer_no_text_no_message silentWriteEvent
    (Or.inr (Or.inr (Or.inr (Or.inr (Or.inl (by decide))))))

/-! ## Edit handlers (`handleEditAction`, `handleStringReplace`,
`handleInsert`)

The local workspace is modelled as an association list from path to file
content; `readFile` failing (the file is not locally known) is `none`. -/

/-- Read a local file; `none` models `fileOps.readFile` throwing. -/
def readFile (fs : List (String × String)) (filePath : String) : Option String :=
  fs.lookup filePath

/-- Whether `pat` occurs as a contiguous sublist of the character list. -/
def sublistSearch (pat : List Char) : List Char → Bool
  | [] => pat.isEmpty
  | c :: rest => pat.isPrefixOf (c :: rest) || sublistSearch pat rest

/-- JS `content.includes(oldStr)`. -/
def strIncludes (s pat : String) : Bool :=
  sublistSearch pat.toList s.toList

/-- Replace the leftmost occurrence of `pat` in a character list. -/
def replaceFirstAux (pat rep : List Char) : List Char → List Char
  | [] => []
  | c :: rest =>
    if pat.isPrefixOf (c :: rest) then rep ++ (c :: rest).drop pat.length
    else c :: replaceFirstAux pat rep rest

/-- JS `content.replace(oldStr, newStr)` with a string pattern: replaces the
first occurrence only (an empty pattern matches at the start). -/
def replaceFirst (s pat rep : String) : String :=
  if pat = "" then rep ++ s
  else String.mk (replaceFirstAux pat.toList rep.toList s.toList)

/-- Outcome of an edit handler: a file write (path and new content), or an
error surfaced to the user with no write. -/
inductive EditResult
  | wrote (filePath content : String)
  | errored
deriving DecidableEq

/-- `handleStringReplace`: missing file falls back to writing `newStr`;
`old_str` not found appends `newStr` to the existing content; otherwise the
first occurrence is replaced. -/
def handleStringReplace (fs : List (String × String)) (filePath oldStr newStr : String) :
    EditResult :=
  match readFile fs filePath with
  | none => EditResult.wrote filePath newStr
  | some content =>
    if !strIncludes content oldStr then
      EditResult.wrote filePath (content ++ newStr)
    else
      EditResult.wrote filePath (replaceFirst content oldStr newStr)

/-- Split a character list on a separator character (JS `split`). -/
def splitOnCharAux (sep : Char) : List Char → List (List Char)
  | [] => [[]]
  | c :: rest =>
    if c = sep then [] :: splitOnCharAux sep rest
    else
      match splitOnCharAux sep rest with
      | [] => [[c]]
      | h :: t => (c :: h) :: t

/-- JS `existingContent.split('\n')`. -/
def splitLines (s : String) : List String :=
  (splitOnCharAux (Char.ofNat 10) s.toList).map String.mk

/-- JS `lines.join('\n')`. -/
def joinWith (sep : String) : List String → String
  | [] => ""
  | [x] => x
  | x :: xs => x ++ sep ++ joinWith sep xs

/-- JS `lines.splice(insertLine, 0, content)` on a split file. -/
def spliceInsert (lines : List String) (insertLine : Nat) (s : String) : List String :=
  lines.take insertLine ++ [s] ++ lines.drop insertLine

/-- `handleInsert`: reads the file, splits on newlines, splices the new
content in at `insertLine`; a missing file makes the read throw, which the
handler catches by surfacing an error (no write). -/
def handleInsert (fs : List (String × String)) (filePath : String) (insertLine : Nat)
    (content : String) : EditResult :=
  match readFile fs filePath with
  | none => EditResult.errored
  | some existing =>
    EditResult.wrote filePath
      (joinWith "\n" (spliceInsert (splitLines existing) insertLine content))

/-- An edit tool-call sub-command as dispatched by `handleEditAction`. -/
inductive EditCommand
  | create (file_text : String)
  | str_replace (old_str new_str : String)
  | insert (insert_line : Nat) (new_str : String)
deriving DecidableEq

/-- The dispatch of `handleEditAction` over the three sub-commands (the
`create` branch calls `handleFileWrite` directly). -/
def applyEditCommand (fs : List (String × String)) (filePath : String) :
    EditCommand → EditResult
  | EditCommand.create t => EditResult.wrote filePath t
  | EditCommand.str_replace o n => handleStringReplace fs filePath o n
  | EditCommand.insert l s => handleInsert fs filePath l s

/-- C9 counterexample: an `insert` sub-command on a path with no local file
surfaces an error instead of falling back to a create: nothing is written.
The claim as stated (all three sub-commands fall back to create) is false. -/
theorem insert_missing_file_cex :
    applyEditCommand [] "/workspace/a.txt" (EditCommand.insert 0 "hello") =
      EditResult.errored ∧
    ¬ applyEditCommand [] "/workspace/a.txt" (EditCommand.insert 0 "hello") =
      EditResult.wrote "/workspace/a.txt" "hello" := by
  decide

/-- C9 (amended): on a target path that is not locally known, `create` and
`str_replace` fall back to writing the new content to the path, while
`insert` surfaces an error and performs no write. -/
theorem edit_missing_path_fallback (fs : List (String × String)) (p : String)
    (cmd : EditCommand) (h : readFile fs p = none) :
    applyEditCommand fs p cmd =
      (match cmd with
       | EditCommand.create t => EditResult.wrote p t
       | EditCommand.str_replace _ n => EditResult.wrote p n
       | EditCommand.insert _ _ => EditResult.errored) := by
  cases cmd with
  | create t => rfl
  | str_replace o n => simp [applyEditCommand, handleStringReplace, h]
  | insert l s => simp [applyEditCommand, handleInsert, h]

/-- C9 witness: the three sub-commands on an empty local workspace. -/
theorem edit_missing_path_fallback_check :
    applyEditCommand [] "/workspace/n.txt" (EditCommand.create "body") =
      EditResult.wrote "/workspace/n.txt" "body" ∧
    applyEditCommand [] "/workspace/n.txt" (EditCommand.str_replace "a" "b") =
      EditResult.wrote "/workspace/n.txt" "b" ∧
    applyEditCommand [] "/workspace/n.txt" (EditCommand.insert 1 "b") =
      EditResult.errored :=
  ⟨edit_missing_path_fallback [] "/workspace/n.txt" (EditCommand.create "body") rfl,
   edit_missing_path_fallback [] "/workspace/n.txt" (EditCommand.str_replace "a" "b") rfl,
   edit_missing_path_fallback [] "/workspace/n.txt" (EditCommand.insert 1 "b") rfl⟩

/-- C10: a `str_replace` whose target file exists locally but whose content
does not contain `old_str` neither fails nor replaces: the handler writes
the original content with `new_str` appended at the end. -/
theorem str_replace_missing_old_appends (fs : List (String × String))
    (p oldStr newStr content : String) (hread : readFile fs p = some content)
    (hmiss : strIncludes content oldStr = false) :
    handleStringReplace fs p oldStr newStr = EditResult.wrote p (content ++ newStr) := by
  simp [handleStringReplace, hread, hmiss]

/-- C10 witness: replacing `"zz"` in a file containing `"alpha"` appends the
new string. -/
theorem str_replace_missing_old_appends_check :
    readFile [("/workspace/m.txt", "alpha")] "/workspace/m.txt" = some "alpha" ∧
    strIncludes "alpha" "zz" = false ∧
    handleStringReplace [("/workspace/m.txt", "alpha")] "/workspace/m.txt" "zz" "beta" =
      EditResult.wrote "/workspace/m.txt" "alphabeta" :=
  ⟨by decide, by decide,
   str_replace_missing_old_appends [("/workspace/m.txt", "alpha")] "/workspace/m.txt"
     "zz" "beta" "alpha" (by decide) (by decide)⟩

/-! ## Realtime Connection dispatch (`OpenHandsClient`)

`onEvent` pushes a handler onto `eventHandlers`; the `oh_event` socket
callback runs `this.eventHandlers.forEach(handler => handler(event))`.
Handlers are abstract values of a type `β` with semantics `run`; a handler
returning `some err` models the handler throwing. -/

/-- `onEvent(handler)`: `this.eventHandlers.push(handler)`. -/
def onEvent {β : Type} (eventHandlers : List β) (handler : β) : List β :=
  eventHandlers ++ [handler]

/-- The `forEach` dispatch of one inbound event: handlers run synchronously
in list order; a thrown exception (`some err`) propagates out of `forEach`,
so iteration stops.  Returns the handlers that were invoked (in order) and
the propagated exception, if any. -/
def dispatchEvent {β α : Type} (run : β → α → Option String) :
    List β → α → List β × Option String
  | [], _ => ([], none)
  | h :: t, e =>
    match run h e with
    | none => ((h :: (dispatchEvent run t e).1), (dispatchEvent run t e).2)
    | some err => ([h], some err)

/-- Dispatch invokes every handler, in order, when none throws. -/
theorem dispatchEvent_all_ok {β α : Type} (run : β → α → Option String) (e : α) :
    ∀ hs : List β, (∀ h ∈ hs, run h e = none) → dispatchEvent run hs e = (hs, none) := by
  intro hs
  induction hs with
  | nil => intro _; rfl
  | cons a t ih =>
    intro hall
    have ha := hall a (List.mem_cons_self a t)
    have ht := ih fun h hm => hall h (List.mem_cons_of_mem a hm)
    simp [dispatchEvent, ha, ht]

/-- Dispatch stops at the first throwing handler: the handlers after it are
not invoked and the exception propagates. -/
theorem dispatchEvent_stops_at_throw {β α : Type} (run : β → α → Option String) (e : α) :
    ∀ (pre : List β) (h : β) (post : List β) (err : String),
      (∀ g ∈ pre, run g e = none) → run h e = some err →
      dispatchEvent run (pre ++ h :: post) e = (pre ++ [h], some err) := by
  intro pre
  induction pre with
  | nil =>
    intro h post err _ hh
    simp [dispatchEvent, hh]
  | cons a t ih =>
    intro h post err hall hh
    have ha := hall a (List.mem_cons_self a t)
    have ht := ih h post err (fun g hg => hall g (List.mem_cons_of_mem a hg)) hh
    simp [dispatchEvent, ha, ht]

/-- C7 counterexample: with two registered subscribers where the first one
throws, the `forEach` dispatch invokes only the first — the exception
prevents delivery of the event to the remaining subscriber.  The exception
isolation stated by the claim is therefore false. -/
theorem dispatch_exception_halts_cex :
    (dispatchEvent (fun (i : Nat) (_ : Unit) => if i = 0 then some "boom" else none)
        [0, 1] ()).1 = [0] ∧
    ¬ (1 ∈ (dispatchEvent (fun (i : Nat) (_ : Unit) => if i = 0 then some "boom" else none)
        [0, 1] ()).1) := by
  decide

/-- C7 (amended): inbound events are dispatched synchronously to the
registered subscribers in registration order (`onEvent` appends, dispatch
iterates the list in order); when no subscriber throws, every subscriber
receives the event; when a subscriber throws, its exception propagates out
of the dispatch loop and the subscribers registered after it do NOT receive
the event. -/
theorem dispatch_order_and_abort {β α : Type} :
    (∀ (hs : List β) (h : β), onEvent hs h = hs ++ [h]) ∧
    (∀ (run : β → α → Option String) (e : α) (hs : List β),
      (∀ h ∈ hs, run h e = none) → dispatchEvent run hs e = (hs, none)) ∧
    (∀ (run : β → α → Option String) (e : α) (pre : List β) (h : β) (post : List β)
        (err : String),
      (∀ g ∈ pre, run g e = none) → run h e = some err →
      dispatchEvent run (pre ++ h :: post) e = (pre ++ [h], some err)) :=
  ⟨fun _ _ => rfl,
   fun run e hs hall => dispatchEvent_all_ok run e hs hall,
   fun run e pre h post err hall hh => dispatchEvent_stops_at_throw run e pre h post err hall hh⟩

/-- C7 witness: registration appends; a benign pair of subscribers both
receive the event in order; a throwing middle subscriber stops delivery
after itself. -/
theorem dispatch_order_and_abort_check :
    onEvent ([0, 1] : List Nat) 2 = [0, 1, 2] ∧
    dispatchEvent (fun (_ : Nat) (_ : Unit) => none) [0, 1] () = ([0, 1], none) ∧
    dispatchEvent (fun (i : Nat) (_ : Unit) => if i = 1 then some "x" else none)
      ([0] ++ 1 :: [2]) () = ([0] ++ [1], some "x") :=
  ⟨(dispatch_order_and_abort (β := Nat) (α := Unit)).1 [0, 1] 2,
   (dispatch_order_and_abort (β := Nat) (α := Unit)).2.1 (fun _ _ => none) () [0, 1]
     (by decide),
   (dispatch_order_and_abort (β := Nat) (α := Unit)).2.2
     (fun i _ => if i = 1 then some "x" else none) () [0] 1 [2] "x" (by decide) (by decide)⟩

/-! ## Session Lifecycle Manager (`OpenHandsClient` polling and reconnect)

Poll responses are modelled as streams indexed by poll number: the `i`-th
fetch of the loop observes the `i`-th element.  A V0 fetch either throws
(`Except.error`) or yields the conversation object; a V1 lookup yields
`none` both when the list is empty and when the fetch threw (the code
catches and returns `null` in both cases). -/

/-- The V0 conversation fields the lifecycle manager reads. -/
structure V0Conversation where
  status : String
  url : Option String
  session_api_key : Option String
deriving DecidableEq

/-- V0 readiness: `data.status === 'RUNNING' || data.status === 'AWAITING_USER_INPUT'`. -/
def v0Ready (c : V0Conversation) : Bool :=
  c.status = "RUNNING" || c.status = "AWAITING_USER_INPUT"

/-- Poll interval of both loops (`setTimeout(..., 2000)`), in milliseconds. -/
def pollIntervalMs : Nat := 2000

/-- Attempt cap of `waitForConversationReady` (`maxAttempts = 30`). -/
def v0MaxAttempts : Nat := 30

/-- The `for` loop of `waitForConversationReady`, polling from index `i`
with the given remaining attempts: a fetch error is swallowed and retried,
a ready response is returned at once, exhaustion yields `null`. -/
def waitV0From (resp : Nat → Except Unit V0Conversation) (i : Nat) :
    Nat → Option V0Conversation
  | 0 => none
  | n + 1 =>
    match resp i with
    | Except.ok d => if v0Ready d then some d else waitV0From resp (i + 1) n
    | Except.error _ => waitV0From resp (i + 1) n

/-- `waitForConversationReady(conversationId, maxAttempts)`. -/
def waitForConversationReady (resp : Nat → Except Unit V0Conversation)
    (maxAttempts : Nat) : Option V0Conversation :=
  waitV0From resp 0 maxAttempts

/-- Number of fetches the V0 loop issues, polling from index `i`. -/
def pollsV0From (resp : Nat → Except Unit V0Conversation) (i : Nat) : Nat → Nat
  | 0 => 0
  | n + 1 =>
    match resp i with
    | Except.ok d => if v0Ready d then 1 else 1 + pollsV0From resp (i + 1) n
    | Except.error _ => 1 + pollsV0From resp (i + 1) n

/-- Fetches issued by a full `waitForConversationReady` run. -/
def v0PollCount (resp : Nat → Except Unit V0Conversation) : Nat :=
  pollsV0From resp 0 v0MaxAttempts

/-- `startConversation` after the wait:
`connectSocket(id, conversationInfo?.session_api_key, conversationInfo?.url)` —
the credential/endpoint pair handed to the connect call. -/
def startConnectArgs (resp : Nat → Except Unit V0Conversation) :
    Option String × Option String :=
  match waitForConversationReady resp v0MaxAttempts with
  | some info => (info.session_api_key, info.url)
  | none => (none, none)

/-- The V1 app-conversation fields the lifecycle manager reads. -/
structure V1Conversation where
  execution_status : Option String
  sandbox_status : Option String
  conversation_url : Option String
  session_api_key : Option String
  sandbox_id : Option String
deriving DecidableEq

/-- V1 readiness: execution status running/awaiting-input AND a conversation
URL AND a session API key are present. -/
def v1Ready (c : V1Conversation) : Bool :=
  (c.execution_status = some "RUNNING" || c.execution_status = some "AWAITING_USER_INPUT") &&
    jsTruthy c.conversation_url && jsTruthy c.session_api_key

/-- `sandboxStatus === 'ERROR' || sandboxStatus === 'FAILED'`. -/
def sandboxFailed (c : V1Conversation) : Bool :=
  c.sandbox_status = some "ERROR" || c.sandbox_status = some "FAILED"

/-- Wall-clock budget of `waitForV1ConversationReady` (`maxWaitMs = 120000`). -/
def v1MaxWaitMs : Nat := 120000

/-- The `while (Date.now() - startTime < maxWaitMs)` loop performs one poll
every `pollIntervalMs`, so at most this many polls. -/
def v1MaxPolls : Nat := v1MaxWaitMs / pollIntervalMs

/-- The `while` loop of `waitForV1ConversationReady` polling from index `i`:
a `null` lookup (missing or failed fetch) is retried, a ready conversation
is returned, a failed sandbox raises, and an exhausted budget raises the
timeout error. -/
def waitV1From (resp : Nat → Option V1Conversation) (i : Nat) :
    Nat → Except String V1Conversation
  | 0 => Except.error "Timeout waiting for conversation to be ready"
  | n + 1 =>
    match resp i with
    | some c =>
      if v1Ready c then Except.ok c
      else if sandboxFailed c then Except.error "Sandbox failed to start"
      else waitV1From resp (i + 1) n
    | none => waitV1From resp (i + 1) n

/-- `waitForV1ConversationReady(conversationId)` with the default 120s
budget. -/
def waitForV1ConversationReady (resp : Nat → Option V1Conversation) :
    Except String V1Conversation :=
  waitV1From resp 0 v1MaxPolls

/-- Number of lookups the V1 loop issues, polling from index `i`. -/
def pollsV1From (resp : Nat → Option V1Conversation) (i : Nat) : Nat → Nat
  | 0 => 0
  | n + 1 =>
    match resp i with
    | some c =>
      if v1Ready c then 1
      else if sandboxFailed c then 1
      else 1 + pollsV1From resp (i + 1) n
    | none => 1 + pollsV1From resp (i + 1) n

/-- Lookups issued by a full `waitForV1ConversationReady` run. -/
def v1PollCount (resp : Nat → Option V1Conversation) : Nat :=
  pollsV1From resp 0 v1MaxPolls

/-- The connect call after a V1 resume:
`connectSocket(id, readyConversation?.session_api_key, readyConversation?.conversation_url)`,
issued only when the wait succeeded. -/
def v1ResumeConnectArgs (resp : Nat → Option V1Conversation) :
    Option (Option String × Option String) :=
  match waitForV1ConversationReady resp with
  | Except.ok ready => some (ready.session_api_key, ready.conversation_url)
  | Except.error _ => none

/-- `needsResume` of `reconnectToConversation`: execution stopped, paused or
finished, or sandbox stopped or paused. -/
def needsResume (c : V1Conversation) : Bool :=
  c.execution_status = some "STOPPED" || c.execution_status = some "PAUSED" ||
    c.execution_status = some "FINISHED" || c.sandbox_status = some "STOPPED" ||
    c.sandbox_status = some "PAUSED"

/-- The externally observable outcome of `reconnectToConversation`. -/
structure ReconnectResult where
  usedV0 : Bool
  v0StartCalled : Bool
  resumeCalls : List String
  connectArgs : Option (Option String × Option String)
deriving DecidableEq

/-- `reconnectToConversation`: resolve the session under the newer (V1)
scheme first; if found, resume the sandbox when `needsResume`, re-poll for
readiness and reconnect with the ready response's credential/endpoint; if
the V1 lookup yields `null`, fall back to the older single-status (V0)
scheme.  `v1First` is the initial `getV1AppConversation` result, `v1Poll`
and `v0Poll` feed the readiness loops, `v0Fetch` is the direct V0 get. -/
def reconnectToConversation (v1First : Option V1Conversation)
    (v1Poll : Nat → Option V1Conversation) (v0Fetch : Except String V0Conversation)
    (v0Poll : Nat → Except Unit V0Conversation) : Except String ReconnectResult :=
  match v1First with
  | some c =>
    if needsResume c then
      let resumes : List String :=
        match c.sandbox_id with
        | some sid => [sid]
        | none => []
      match waitForV1ConversationReady v1Poll with
      | Except.ok ready =>
        Except.ok ⟨false, false, resumes,
          some (ready.session_api_key, ready.conversation_url)⟩
      | Except.error e => Except.error e
    else if c.execution_status = some "RUNNING" ||
        c.execution_status = some "AWAITING_USER_INPUT" then
      Except.ok ⟨false, false, [], some (c.session_api_key, c.conversation_url)⟩
    else
      Except.ok ⟨false, false, [], none⟩
  | none =>
    match v0Fetch with
    | Except.error e => Except.error e
    | Except.ok conv =>
      if conv.status = "STOPPED" || conv.status = "FINISHED" then
        match waitForConversationReady v0Poll v0MaxAttempts with
        | some ready =>
          Except.ok ⟨true, true, [], some (ready.session_api_key, ready.url)⟩
        | none => Except.ok ⟨true, true, [], some (none, none)⟩
      else if conv.status = "RUNNING" then
        Except.ok ⟨true, false, [], some (conv.session_api_key, conv.url)⟩
      else
        Except.ok ⟨true, false, [], none⟩

/-- A poll index at which the V0 loop keeps going: the fetch threw or the
response was not ready. -/
def v0NotReadyAt (resp : Nat → Except Unit V0Conversation) (j : Nat) : Bool :=
  match resp j with
  | Except.ok d => !v0Ready d
  | Except.error _ => true

/-- A poll index at which the V1 loop keeps going: the lookup was `null` or
the conversation was neither ready nor failed. -/
def v1NotReadyAt (resp : Nat → Option V1Conversation) (j : Nat) : Bool :=
  match resp j with
  | some c => !v1Ready c && !sandboxFailed c
  | none => true

/-- The V0 loop returns the first ready response and stops polling there. -/
theorem waitV0From_first_ready (resp : Nat → Except Unit V0Conversation) :
    ∀ (fuel i k : Nat) (d : V0Conversation), k < fuel →
      (∀ j, j < k → v0NotReadyAt resp (i + j) = true) →
      resp (i + k) = Except.ok d → v0Ready d = true →
      waitV0From resp i fuel = some d ∧ pollsV0From resp i fuel = k + 1 := by
  intro fuel
  induction fuel with
  | zero => intro i k d hk; exact absurd hk (Nat.not_lt_zero k)
  | succ n ih =>
    intro i k d hk hskip hok hready
    cases k with
    | zero =>
      rw [Nat.add_zero] at hok
      simp [waitV0From, pollsV0From, hok, hready]
    | succ k' =>
      have h0 : v0NotReadyAt resp i = true := by
        have := hskip 0 (Nat.succ_pos k')
        rwa [Nat.add_zero] at this
      have hrest := ih (i + 1) k' d (by omega)
        (fun j hj => by
          have := hskip (j + 1) (by omega)
          rwa [show i + (j + 1) = i + 1 + j by omega] at this)
        (by rwa [show i + 1 + k' = i + (k' + 1) by omega])
        hready
      unfold v0NotReadyAt at h0
      cases hr : resp i with
      | ok e =>
        rw [hr] at h0
        simp only [Bool.not_eq_true'] at h0
        simp [waitV0From, pollsV0From, hr, h0, hrest.1, hrest.2]
        omega
      | error u =>
        simp [waitV0From, pollsV0From, hr, hrest.1, hrest.2]
        omega

/-- Exhausting the V0 loop yields `null` after exactly `fuel` polls. -/
theorem waitV0From_exhaust (resp : Nat → Except Unit V0Conversation) :
    ∀ (fuel i : Nat), (∀ j, j < fuel → v0NotReadyAt resp (i + j) = true) →
      waitV0From resp i fuel = none ∧ pollsV0From resp i fuel = fuel := by
  intro fuel
  induction fuel with
  | zero => intro i _; exact ⟨rfl, rfl⟩
  | succ n ih =>
    intro i hskip
    have h0 : v0NotReadyAt resp i = true := by
      have := hskip 0 (Nat.succ_pos n)
      rwa [Nat.add_zero] at this
    have hrest := ih (i + 1) fun j hj => by
      have := hskip (j + 1) (by omega)
      rwa [show i + (j + 1) = i + 1 + j by omega] at this
    unfold v0NotReadyAt at h0
    cases hr : resp i with
    | ok e =>
      rw [hr] at h0
      simp only [Bool.not_eq_true'] at h0
      simp [waitV0From, pollsV0From, hr, h0, hrest.1, hrest.2]
      omega
    | error u =>
      simp [waitV0From, pollsV0From, hr, hrest.1, hrest.2]
      omega

/-- The V1 loop returns the first ready response and stops polling there. -/
theorem waitV1From_first_ready (resp : Nat → Option V1Conversation) :
    ∀ (fuel i k : Nat) (c : V1Conversation), k < fuel →
      (∀ j, j < k → v1NotReadyAt resp (i + j) = true) →
      resp (i + k) = some c → v1Ready c = true →
      waitV1From resp i fuel = Except.ok c ∧ pollsV1From resp i fuel = k + 1 := by
  intro fuel
  induction fuel with
  | zero => intro i k c hk; exact absurd hk (Nat.not_lt_zero k)
  | succ n ih =>
    intro i k c hk hskip hsome hready
    cases k with
    | zero =>
      rw [Nat.add_zero] at hsome
      simp [waitV1From, pollsV1From, hsome, hready]
    | succ k' =>
      have h0 : v1NotReadyAt resp i = true := by
        have := hskip 0 (Nat.succ_pos k')
        rwa [Nat.add_zero] at this
      have hrest := ih (i + 1) k' c (by omega)
        (fun j hj => by
          have := hskip (j + 1) (by omega)
          rwa [show i + (j + 1) = i + 1 + j by omega] at this)
        (by rwa [show i + 1 + k' = i + (k' + 1) by omega])
        hready
      unfold v1NotReadyAt at h0
      cases hr : resp i with
      | some e =>
        rw [hr] at h0
        simp only [Bool.and_eq_true, Bool.not_eq_true'] at h0
        simp [waitV1From, pollsV1From, hr, h0.1, h0.2, hrest.1, hrest.2]
        omega
      | none =>
        simp [waitV1From, pollsV1From, hr, hrest.1, hrest.2]
        omega

/-- Exhausting the V1 loop raises the timeout error after exactly `fuel`
polls. -/
theorem waitV1From_exhaust (resp : Nat → Option V1Conversation) :
    ∀ (fuel i : Nat), (∀ j, j < fuel → v1NotReadyAt resp (i + j) = true) →
      waitV1From resp i fuel =
        Except.error "Timeout waiting for conversation to be ready" ∧
      pollsV1From resp i fuel = fuel := by
  intro fuel
  induction fuel with
  | zero => intro i _; exact ⟨rfl, rfl⟩
  | succ n ih =>
    intro i hskip
    have h0 : v1NotReadyAt resp i = true := by
      have := hskip 0 (Nat.succ_pos n)
      rwa [Nat.add_zero] at this
    have hrest := ih (i + 1) fun j hj => by
      have := hskip (j + 1) (by omega)
      rwa [show i + (j + 1) = i + 1 + j by omega] at this
    unfold v1NotReadyAt at h0
    cases hr : resp i with
    | some e =>
      rw [hr] at h0
      simp only [Bool.and_eq_true, Bool.not_eq_true'] at h0
      simp [waitV1From, pollsV1From, hr, h0.1, h0.2, hrest.1, hrest.2]
      omega
    | none =>
      simp [waitV1From, pollsV1From, hr, hrest.1, hrest.2]
      omega

/-- C4 counterexample: (a) the simple variant (`waitForConversationReady`)
accepts as ready a response with status `"RUNNING"` but no endpoint and no
credential, contradicting the claimed ready condition "status in
{RUNNING, AWAITING_USER_INPUT} and a routable endpoint plus credential are
present"; (b) the richer variant (`waitForV1ConversationReady`) on budget
exhaustion raises a timeout error instead of letting the caller proceed
best-effort. -/
theorem readiness_ready_condition_cex :
    waitForConversationReady (fun _ => Except.ok ⟨"RUNNING", none, none⟩) v0MaxAttempts =
      some ⟨"RUNNING", none, none⟩ ∧
    (V0Conversation.mk "RUNNING" none none).url = none ∧
    (V0Conversation.mk "RUNNING" none none).session_api_key = none ∧
    waitForV1ConversationReady (fun _ => none) =
      Except.error "Timeout waiting for conversation to be ready" := by
  refine ⟨rfl, rfl, rfl, ?_⟩
  exact (waitV1From_exhaust (fun _ => none) v1MaxPolls 0 (fun j _ => rfl)).1

/-- C4 (amended): readiness is awaited by a bounded polling loop (2-second
interval; 30 attempts in the simple variant, a 120-second wall clock — at
most 60 polls — in the richer variant).  The simple variant's ready
condition checks the status only (endpoint and credential are not
required); the richer variant requires execution status in
{RUNNING, AWAITING_USER_INPUT} plus a conversation URL and session API key.
Transient fetch errors are swallowed and retried; once a poll reports ready
no further polls are issued and the subsequent connect uses the credential
and endpoint from that same ready response.  On exhaustion the simple
variant returns null and the caller proceeds best-effort, while the richer
variant surfaces an explicit timeout error. -/
theorem readiness_polling_behavior :
    (∀ (resp : Nat → Except Unit V0Conversation) (k : Nat) (d : V0Conversation),
      k < v0MaxAttempts → (∀ j, j < k → v0NotReadyAt resp j = true) →
      resp k = Except.ok d → v0Ready d = true →
      waitForConversationReady resp v0MaxAttempts = some d ∧
      v0PollCount resp = k + 1 ∧
      startConnectArgs resp = (d.session_api_key, d.url)) ∧
    (∀ resp : Nat → Except Unit V0Conversation,
      (∀ j, j < v0MaxAttempts → v0NotReadyAt resp j = true) →
      waitForConversationReady resp v0MaxAttempts = none ∧
      v0PollCount resp = v0MaxAttempts ∧
      startConnectArgs resp = (none, none)) ∧
    (∀ (resp : Nat → Option V1Conversation) (k : Nat) (c : V1Conversation),
      k < v1MaxPolls → (∀ j, j < k → v1NotReadyAt resp j = true) →
      resp k = some c → v1Ready c = true →
      waitForV1ConversationReady resp = Except.ok c ∧
      v1PollCount resp = k + 1 ∧
      v1ResumeConnectArgs resp = some (c.session_api_key, c.conversation_url)) ∧
    (∀ resp : Nat → Option V1Conversation,
      (∀ j, j < v1MaxPolls → v1NotReadyAt resp j = true) →
      waitForV1ConversationReady resp =
        Except.error "Timeout waiting for conversation to be ready" ∧
      v1PollCount resp = v1MaxPolls) := by
  refine ⟨?_, ?_, ?_, ?_⟩
  · intro resp k d hk hskip hok hready
    have h := waitV0From_first_ready resp v0MaxAttempts 0 k d hk
      (fun j hj => by rw [Nat.zero_add]; exact hskip j hj)
      (by rw [Nat.zero_add]; exact hok) hready
    refine ⟨h.1, h.2, ?_⟩
    simp [startConnectArgs, waitForConversationReady, h.1]
  · intro resp hskip
    have h := waitV0From_exhaust resp v0MaxAttempts 0
      (fun j hj => by rw [Nat.zero_add]; exact hskip j hj)
    refine ⟨h.1, h.2, ?_⟩
    simp [startConnectArgs, waitForConversationReady, h.1]
  · intro resp k c hk hskip hsome hready
    have h := waitV1From_first_ready resp v1MaxPolls 0 k c hk
      (fun j hj => by rw [Nat.zero_add]; exact hskip j hj)
      (by rw [Nat.zero_add]; exact hsome) hready
    refine ⟨h.1, h.2, ?_⟩
    simp [v1ResumeConnectArgs, waitForV1ConversationReady, h.1]
  · intro resp hskip
    exact waitV1From_exhaust resp v1MaxPolls 0
      (fun j hj => by rw [Nat.zero_add]; exact hskip j hj)

/-- V0 response that is ready and carries endpoint and credential. -/
def c4ReadyV0 : V0Conversation := ⟨"RUNNING", some "https://rt.example", some "sk-1"⟩

/-- V0 poll stream: a thrown fetch, a not-ready response, then ready. -/
def c4V0Stream : Nat → Except Unit V0Conversation := fun i =>
  if i = 0 then Except.error ()
  else if i = 1 then Except.ok ⟨"STARTING", none, none⟩
  else Except.ok c4ReadyV0

/-- V0 poll stream that always throws. -/
def c4V0ErrStream : Nat → Except Unit V0Conversation := fun _ => Except.error ()

/-- V1 conversation that is ready (running, URL and key present). -/
def c4ReadyV1 : V1Conversation :=
  ⟨some "RUNNING", some "RUNNING", some "https://conv.example", some "key-9", some "sb-9"⟩

/-- V1 poll stream: a failed lookup, then ready. -/
def c4V1Stream : Nat → Option V1Conversation := fun i =>
  if i = 0 then none else some c4ReadyV1

/-- V1 poll stream whose lookup never succeeds. -/
def c4V1NullStream : Nat → Option V1Conversation := fun _ => none

/-- C4 witness: concrete poll streams exercising the first-ready and the
exhaustion conclusions of both loop variants. -/
theorem readiness_polling_behavior_check :
    (waitForConversationReady c4V0Stream v0MaxAttempts = some c4ReadyV0 ∧
      v0PollCount c4V0Stream = 3 ∧
      startConnectArgs c4V0Stream = (some "sk-1", some "https://rt.example")) ∧
    (waitForConversationReady c4V0ErrStream v0MaxAttempts = none ∧
      v0PollCount c4V0ErrStream = v0MaxAttempts ∧
      startConnectArgs c4V0ErrStream = (none, none)) ∧
    (waitForV1ConversationReady c4V1Stream = Except.ok c4ReadyV1 ∧
      v1PollCount c4V1Stream = 2 ∧
      v1ResumeConnectArgs c4V1Stream = some (some "key-9", some "https://conv.example")) ∧
    (waitForV1ConversationReady c4V1NullStream =
        Except.error "Timeout waiting for conversation to be ready" ∧
      v1PollCount c4V1NullStream = v1MaxPolls) :=
  ⟨readiness_polling_behavior.1 c4V0Stream 2 c4ReadyV0 (by decide) (by decide) rfl
     (by decide),
   readiness_polling_behavior.2.1 c4V0ErrStream (by decide),
   readiness_polling_behavior.2.2.1 c4V1Stream 1 c4ReadyV1 (by decide) (by decide) rfl
     (by decide),
   readiness_polling_behavior.2.2.2 c4V1NullStream (by decide)⟩

/-- C8: `reconnectToConversation` resolves the session under the newer (V1)
scheme first; every stopped/paused/finished execution or stopped/paused
sandbox status makes `needsResume` hold; in that case it issues the sandbox
resume call, re-polls for readiness and reconnects with the credential and
endpoint of the ready response; and whenever the V1 lookup yields `null`
(missing or failed), it falls back to the older single-status scheme instead
of failing. -/
theorem reconnect_v1_resume_and_v0_fallback :
    (∀ c : V1Conversation,
      (c.execution_status = some "STOPPED" ∨ c.execution_status = some "PAUSED" ∨
        c.execution_status = some "FINISHED" ∨ c.sandbox_status = some "STOPPED" ∨
        c.sandbox_status = some "PAUSED") → needsResume c = true) ∧
    (∀ (c : V1Conversation) (p : Nat → Option V1Conversation)
        (f : Except String V0Conversation) (q : Nat → Except Unit V0Conversation)
        (sid : String) (ready : V1Conversation),
      needsResume c = true → c.sandbox_id = some sid →
      waitForV1ConversationReady p = Except.ok ready →
      reconnectToConversation (some c) p f q =
        Except.ok ⟨false, false, [sid],
          some (ready.session_api_key, ready.conversation_url)⟩) ∧
    (∀ (p : Nat → Option V1Conversation) (q : Nat → Except Unit V0Conversation)
        (conv : V0Conversation),
      ∃ res : ReconnectResult,
        reconnectToConversation none p (Except.ok conv) q = Except.ok res ∧
        res.usedV0 = true) := by
  refine ⟨?_, ?_, ?_⟩
  · intro c h
    rcases h with h | h | h | h | h <;> simp [needsResume, h]
  · intro c p f q sid ready hneeds hsid hwait
    simp [reconnectToConversation, hneeds, hsid, hwait]
  · intro p q conv
    simp only [reconnectToConversation]
    split
    · split
      · exact ⟨_, rfl, rfl⟩
      · exact ⟨_, rfl, rfl⟩
    · split
      · exact ⟨_, rfl, rfl⟩
      · exact ⟨_, rfl, rfl⟩

/-- V1 conversation needing resume (stopped execution, paused sandbox). -/
def c8NeedsResumeC : V1Conversation :=
  ⟨some "STOPPED", some "PAUSED", none, none, some "sb-7"⟩

/-- Ready V1 conversation returned by the re-poll. -/
def c8ReadyC : V1Conversation :=
  ⟨some "RUNNING", some "RUNNING", some "https://c8.example", some "key-8", some "sb-7"⟩

/-- V1 re-poll stream that is ready at once. -/
def c8V1Stream : Nat → Option V1Conversation := fun _ => some c8ReadyC

/-- C8 witness: a stopped V1 conversation resumes its sandbox and reconnects
with the re-polled credential/endpoint; a `null` V1 lookup falls back to the
V0 scheme and succeeds. -/
theorem reconnect_v1_resume_and_v0_fallback_check :
    needsResume c8NeedsResumeC = true ∧
    reconnectToConversation (some c8NeedsResumeC) c8V1Stream
        (Except.ok ⟨"RUNNING", none, none⟩) (fun _ => Except.error ()) =
      Except.ok ⟨false, false, ["sb-7"], some (some "key-8", some "https://c8.example")⟩ ∧
    (∃ res : ReconnectResult,
      reconnectToConversation none c8V1Stream
          (Except.ok ⟨"RUNNING", some "https://v0.example", some "k0"⟩)
          (fun _ => Except.error ()) =
        Except.ok res ∧ res.usedV0 = true) :=
  ⟨reconnect_v1_resume_and_v0_fallback.1 c8NeedsResumeC (Or.inl rfl),
   reconnect_v1_resume_and_v0_fallback.2.1 c8NeedsResumeC c8V1Stream
     (Except.ok ⟨"RUNNING", none, none⟩) (fun _ => Except.error ()) "sb-7" c8ReadyC
     rfl rfl rfl,
   reconnect_v1_resume_and_v0_fallback.2.2 c8V1Stream (fun _ => Except.error ())
     ⟨"RUNNING", some "https://v0.example", some "k0"⟩⟩
